import Mathlib

/-!
Verification of the gateway session state machine of the `discord_go` client
(`src/client/client.go`, current revision, plus the earlier revision's
`resumeOldConnection`), as a shallow embedding: each Go function becomes a
Lean function on an explicit client-state record, transport effects become
an output list of wire frames, and external failure points (dial, JSON
marshal, socket write, close) are injected through an environment record.
-/

namespace DiscordGo

/-!
Opcode constants exactly as the `iota` block in `src/opcodes/opcodes.go`
produces them.  Note the block does not skip the unused opcode 5, so from
`Resume` on these values are one less than the wire values documented in the
comment of that same file (Resume=6, Reconnect=7, InvalidSession=9, Hello=10,
HeartbeatACK=11 on the wire).
-/
namespace opcodes

def Dispatch : Int := 0

def Heartbeat : Int := 1

def Identify : Int := 2

def PresenceUpdate : Int := 3

def VoiceStateUpdate : Int := 4

def Resume : Int := 5

def Reconnect : Int := 6

def RequestGuildMembers : Int := 7

def InvalidSession : Int := 8

def Hello : Int := 9

def HeartbeatACK : Int := 10

end opcodes

/-- The mutable fields of the Go `Client` struct that the gateway logic
touches.  `connOpen` models whether the `connection` pointer is non-nil. -/
structure Client where
  token : String
  gateway : String
  sessionId : String
  resumeGateway : String
  heartbeatInterval : Int
  lastHeartbeatAcked : Bool
  lastHeartbeatTimestamp : Int
  sequence : Int
  isResuming : Bool
  connOpen : Bool
deriving Repr, DecidableEq

/-- Environment of externally determined outcomes: the current wall clock in
milliseconds and whether each fallible external step succeeds. -/
structure Env where
  now : Int
  dialOk : Bool
  marshalOk : Bool
  writeOk : Bool
  closeOk : Bool
deriving Repr, DecidableEq

/-- Wire frames written to the websocket by the client. -/
inductive Frame where
  | heartbeat (seq : Int)
  | identifyMsg (token : String)
  | resumeMsg (token : String) (sessionId : String) (seq : Int)
  | closeNormal
deriving Repr, DecidableEq

/-- The lazily decoded `d` payload of a received packet (`json.RawMessage`
in Go): either it decodes to the shape a given handler asks for, or not. -/
inductive Payload where
  | ready (sessionId : String) (resumeUrl : String)
  | invalidSession (resumable : Bool)
  | raw
  | malformed
deriving Repr, DecidableEq

/-- The wire envelope `Packet {op, t, d, s}`; a JSON `s: null` decodes to 0 in
Go, modelled by `s = 0`. -/
structure Packet where
  op : Int
  t : String
  d : Payload
  s : Int
deriving Repr, DecidableEq

/-- `json.Unmarshal(message.D, &data)` for `ReadyData`. -/
def decodeReady : Payload → Option (String × String)
  | .ready sid url => some (sid, url)
  | _ => none

/-- `json.Unmarshal(data, &canResume)` for the invalid-session flag. -/
def decodeBool : Payload → Option Bool
  | .invalidSession b => some b
  | _ => none

/-- Errors `sendHeartbeat` can return. -/
inductive HBErr where
  | notAcked
  | nilConn
  | marshalFail
  | writeFail
deriving Repr, DecidableEq

/-- `sendHeartbeat` of the current revision: refuse if the last heartbeat is
unacknowledged; otherwise clear the ack flag and stamp the send time, then
load the sequence and connection and attempt the write, failing on a nil
connection, a marshalling error, or a write error. -/
def sendHeartbeat (env : Env) (c : Client) : Client × List Frame × Option HBErr :=
  if !c.lastHeartbeatAcked then (c, [], some .notAcked)
  else
    let c1 := { c with lastHeartbeatAcked := false, lastHeartbeatTimestamp := env.now }
    if !c1.connOpen then (c1, [], some .nilConn)
    else if !env.marshalOk then (c1, [], some .marshalFail)
    else if !env.writeOk then (c1, [], some .writeFail)
    else (c1, [Frame.heartbeat c1.sequence], none)

/-- `acknowledgeHeartbeat`: set the ack flag and stamp the ack time. -/
def acknowledgeHeartbeat (env : Env) (c : Client) : Client :=
  { c with lastHeartbeatAcked := true, lastHeartbeatTimestamp := env.now }

/-- One `ticker.C` iteration of `startHeartbeat`: call `sendHeartbeat` and
log (discard) any error; no other action is taken. -/
def heartbeatTick (env : Env) (c : Client) : Client × List Frame :=
  ((sendHeartbeat env c).1, (sendHeartbeat env c).2.1)

/-- Errors `handleMessage` can return. -/
inductive HMErr where
  | readyDecodeFail
  | requestedHeartbeatFail (e : HBErr)
  | reconnectTodo
  | invalidSessionDecodeFail
  | invalidSessionResumable
  | invalidSessionNotResumable
deriving Repr, DecidableEq

/-- The event-type `switch message.T` of `handleMessage`: on `"READY"` decode
the payload (returning on failure), store the session id and resume gateway,
set the ack flag and send one heartbeat, logging (discarding) its error; on
`"RESUMED"` clear `isResuming`; otherwise only log. -/
def handleEventType (env : Env) (c : Client) (m : Packet) :
    Client × List Frame × Option HMErr :=
  if m.t = "READY" then
    match decodeReady m.d with
    | none => (c, [], some .readyDecodeFail)
    | some p =>
      let c1 := { c with sessionId := p.1, resumeGateway := p.2, lastHeartbeatAcked := true }
      ((sendHeartbeat env c1).1, (sendHeartbeat env c1).2.1, none)
  else if m.t = "RESUMED" then ({ c with isResuming := false }, [], none)
  else (c, [], none)

/-- The opcode `switch message.Op` of `handleMessage`.  `Reconnect` returns a
TODO error; `Dispatch` stores the packet's `s` unconditionally and calls the
empty `onEvent`; `InvalidSession` delegates to `handleInvalidSession`, which
only returns errors; unknown opcodes are logged. -/
def handleOpcode (env : Env) (c : Client) (m : Packet) :
    Client × List Frame × Option HMErr :=
  if m.op = opcodes.HeartbeatACK then (acknowledgeHeartbeat env c, [], none)
  else if m.op = opcodes.Heartbeat then
    match sendHeartbeat env c with
    | (c1, fs, some e) => (c1, fs, some (.requestedHeartbeatFail e))
    | (c1, fs, none) => (c1, fs, none)
  else if m.op = opcodes.Reconnect then (c, [], some .reconnectTodo)
  else if m.op = opcodes.Dispatch then ({ c with sequence := m.s }, [], none)
  else if m.op = opcodes.InvalidSession then
    match decodeBool m.d with
    | none => (c, [], some .invalidSessionDecodeFail)
    | some true => (c, [], some .invalidSessionResumable)
    | some false => (c, [], some .invalidSessionNotResumable)
  else (c, [], none)

/-- The trailing `if message.S > 0` compare-and-swap loop of `handleMessage`:
raise `sequence` to `s` when `s` is positive and larger. -/
def casMaxSequence (c : Client) (s : Int) : Client :=
  if s > 0 then (if s > c.sequence then { c with sequence := s } else c) else c

/-- `handleMessage` of the current revision: event-type switch, then opcode
switch, then the sequence update — each `return err` inside a switch skips
everything after it. -/
def handleMessage (env : Env) (c : Client) (m : Packet) :
    Client × List Frame × Option HMErr :=
  match handleEventType env c m with
  | (c1, fs, some e) => (c1, fs, some e)
  | (c1, fs, none) =>
    match handleOpcode env c1 m with
    | (c2, fs2, some e) => (c2, fs ++ fs2, some e)
    | (c2, fs2, none) => (casMaxSequence c2 m.s, fs ++ fs2, none)

/-- Fold `handleMessage` over a list of packets received in order. -/
def processAll (env : Env) (c : Client) (ms : List Packet) : Client :=
  ms.foldl (fun acc m => (handleMessage env acc m).1) c

/-- The ways the `select` of `startListening` can be woken. -/
inductive ListenEvent where
  | cancelled
  | readFail
  | chanClosed
  | msg (m : Packet)
deriving Repr, DecidableEq

/-- The non-nil error values `startListening` can return. -/
inductive ListenExit where
  | ctxErr
  | readErr
  | channelClosedErr
deriving Repr, DecidableEq

/-- One iteration of the `select` loop of `startListening`: cancellation
closes the connection and returns `ctx.Err()`; a reader-goroutine error on
`errCh` is returned as is; a closed message channel returns an error; a
received message is handed to `handleMessage`, whose error is only logged. -/
def listenStep (env : Env) (c : Client) (ev : ListenEvent) : Client × Option ListenExit :=
  match ev with
  | .cancelled => ({ c with connOpen := false }, some .ctxErr)
  | .readFail => (c, some .readErr)
  | .chanClosed => (c, some .channelClosedErr)
  | .msg m => ((handleMessage env c m).1, none)

/-- Run the `startListening` loop over a finite schedule of wake-ups,
stopping at the first returned error. -/
def runListen (env : Env) (c : Client) (evs : List ListenEvent) :
    Client × Option ListenExit :=
  match evs with
  | [] => (c, none)
  | ev :: rest =>
    match listenStep env c ev with
    | (c1, some e) => (c1, some e)
    | (c1, none) => runListen env c1 rest

/-- What `ConnectToGateway` reads as its first frame after dialing. -/
inductive FirstFrame where
  | readFail
  | unmarshalFail
  | hello (op : Int) (heartbeatIntervalMs : Int)
deriving Repr, DecidableEq

/-- The error values of the handshake phase of `ConnectToGateway`. -/
inductive ConnectErr where
  | gatewayNotSet
  | dialFail
  | helloReadFail
  | helloUnmarshalFail
  | invalidHandshake (got : Int)
  | identifyFail
deriving Repr, DecidableEq

/-- Result of the handshake phase of `ConnectToGateway`: the client state,
the frames written, the returned error if any, and whether execution reached
`go c.startHeartbeat(ctx)` / `c.startListening(ctx)`. -/
structure ConnectOutcome where
  client : Client
  frames : List Frame
  error : Option ConnectErr
  loopsStarted : Bool
deriving Repr, DecidableEq

/-- The handshake phase of `ConnectToGateway` up to starting the heartbeat
and listen loops: require a gateway URL, dial, read the first frame, require
`message.Op == opcodes.Hello`, store the interval as nanoseconds
(`time.Duration(ms) * time.Millisecond`), then send Identify; only after all
of that are the loops started. -/
def connectHandshake (env : Env) (c : Client) (ff : FirstFrame) : ConnectOutcome :=
  if c.gateway = "" then ⟨c, [], some .gatewayNotSet, false⟩
  else if !env.dialOk then ⟨c, [], some .dialFail, false⟩
  else
    let c0 := { c with connOpen := true }
    match ff with
    | .readFail => ⟨c0, [], some .helloReadFail, false⟩
    | .unmarshalFail => ⟨c0, [], some .helloUnmarshalFail, false⟩
    | .hello op ms =>
      if op = opcodes.Hello then
        let c1 := { c0 with heartbeatInterval := ms * 1000000 }
        if !env.marshalOk then ⟨c1, [], some .identifyFail, false⟩
        else if !env.writeOk then ⟨c1, [], some .identifyFail, false⟩
        else ⟨c1, [Frame.identifyMsg c1.token], none, true⟩
      else ⟨c0, [], some (.invalidHandshake op), false⟩

/-- The state `NewBot` returns on success: fresh identity fields, sequence
stored as −1 and the ack flag stored as true, no connection yet. -/
def newBot (token gatewayUrl : String) : Client :=
  { token := token, gateway := gatewayUrl, sessionId := "", resumeGateway := ""
  , heartbeatInterval := 0, lastHeartbeatAcked := true, lastHeartbeatTimestamp := 0
  , sequence := -1, isResuming := false, connOpen := false }

/-- The error `Disconnect` can return. -/
inductive DiscoErr where
  | closeFail
deriving Repr, DecidableEq

/-- `Disconnect`: with no open connection return nil immediately; otherwise
write a normal-closure frame (write errors only logged), call `Close` —
returning its error without clearing the handle — and on success clear the
connection handle. -/
def disconnect (env : Env) (c : Client) : Client × List Frame × Option DiscoErr :=
  if !c.connOpen then (c, [], none)
  else if !env.closeOk then (c, [Frame.closeNormal], some .closeFail)
  else ({ c with connOpen := false }, [Frame.closeNormal], none)

/-- `resumeOldConnection` of the earlier revision (the only revision that
implements Resume): return if `resumeGateway` is empty; otherwise set
`isResuming`, dial the resume gateway, and send a Resume frame carrying the
token, the cached session id (not checked for emptiness) and the current
sequence. -/
def resumeOldConnection (env : Env) (c : Client) : Client × List Frame :=
  if c.resumeGateway = "" then (c, [])
  else
    let c1 := { c with isResuming := true }
    if !env.dialOk then (c1, [])
    else
      let c2 := { c1 with connOpen := true }
      if !env.marshalOk then (c2, [])
      else if !env.writeOk then (c2, [])
      else (c2, [Frame.resumeMsg c2.token c2.sessionId c2.sequence])

/-- Environment in which every external step succeeds. -/
def envOk : Env :=
  { now := 0, dialOk := true, marshalOk := true, writeOk := true, closeOk := true }

/-- A freshly constructed client pointed at a concrete gateway. -/
def mkClient : Client := newBot "tok" "wss://gateway"

/-- `mkClient` after a connection has been stored. -/
def mkClientActive : Client := { mkClient with connOpen := true }

/-- A dispatch packet with event type `"MESSAGE_CREATE"` and sequence `n`. -/
def dispatchPacket (n : Int) : Packet :=
  { op := opcodes.Dispatch, t := "MESSAGE_CREATE", d := .raw, s := n }

/-- A READY dispatch packet (opcode `Dispatch`, wire sequence 1) whose payload
decodes to `ReadyData` with the given session id and resume URL. -/
def readyPacket (sid url : String) : Packet :=
  { op := opcodes.Dispatch, t := "READY", d := .ready sid url, s := 1 }

/-- An InvalidSession packet (using the code's own `opcodes.InvalidSession`
constant) whose payload decodes to `resumable = false`, with `s: null`. -/
def invalidSessionPacket : Packet :=
  { op := opcodes.InvalidSession, t := "", d := .invalidSession false, s := 0 }

/-- A connected client whose last heartbeat has not been acknowledged. -/
def zombieClient : Client := { mkClientActive with lastHeartbeatAcked := false }

/-- A connected client holding a cached session identity. -/
def sessionClient : Client :=
  { mkClientActive with sessionId := "abc", resumeGateway := "wss://x" }

/-- A client with a cached resume gateway but an empty session id. -/
def noSessionClient : Client := { mkClient with resumeGateway := "wss://resume" }

/-- A client with a cached session id but an empty resume gateway. -/
def noResumeUrlClient : Client := { mkClient with sessionId := "abc" }

/-- A client whose connection pointer is nil but whose ack flag is set. -/
def noConnClient : Client := { mkClient with connOpen := false }

end DiscordGo

namespace DiscordGo

/-- C1 counterexample: processing Dispatch(seq=5) then Dispatch(seq=3) from
the initial tracked sequence −1 leaves the tracked sequence at 3, not at the
maximum 5 — the Dispatch branch of `handleMessage` stores the packet's
sequence unconditionally before the monotonic-max update, which then compares
the stored value with itself. -/
theorem c1_counterexample :
    (processAll envOk (newBot "tok" "wss://g") [dispatchPacket 5, dispatchPacket 3]).sequence = 3
    ∧ ¬ (processAll envOk (newBot "tok" "wss://g")
          [dispatchPacket 5, dispatchPacket 3]).sequence = 5 := by
  decide

/-- C1 amended: after `handleMessage` processes a Dispatch packet (with an
event type other than `"READY"`), the tracked sequence equals that packet's
sequence number exactly — the last dispatch wins, not the maximum of all
sequence numbers seen. -/
theorem c1_amended (env : Env) (c : Client) (m : Packet)
    (hop : m.op = opcodes.Dispatch) (ht : m.t ≠ "READY") :
    ((handleMessage env c m).1).sequence = m.s := by
  unfold handleMessage handleEventType handleOpcode
  rw [if_neg ht, hop]
  by_cases hr : m.t = "RESUMED" <;>
    simp [hr, opcodes.Dispatch, opcodes.HeartbeatACK, opcodes.Heartbeat,
      opcodes.Reconnect, opcodes.InvalidSession, casMaxSequence]

/-- C1 witness: instantiating the amended claim at a concrete dispatch
packet with sequence 3. -/
theorem c1_witness :
    (dispatchPacket 3).op = opcodes.Dispatch ∧ (dispatchPacket 3).t ≠ "READY"
    ∧ ((handleMessage envOk mkClient (dispatchPacket 3)).1).sequence = 3 :=
  ⟨rfl, by decide, c1_amended envOk mkClient (dispatchPacket 3) rfl (by decide)⟩

/-- C2 counterexample: at a tick with the previous heartbeat unacknowledged,
`heartbeatTick` (the `ticker.C` branch of `startHeartbeat`) leaves the client
state completely unchanged and emits no frame whatsoever — in particular no
Resume or Identify frame and no dial — so no reconnect policy is triggered;
`sendHeartbeat`'s error is merely logged. -/
theorem c2_counterexample :
    zombieClient.lastHeartbeatAcked = false
    ∧ heartbeatTick envOk zombieClient = (zombieClient, []) := by
  decide

/-- C2 amended: when the previous heartbeat is unacknowledged at a tick, no
heartbeat frame is sent and `sendHeartbeat` returns a not-acknowledged error,
which `startHeartbeat` only logs; the state is unchanged and no reconnect is
triggered (no reconnect policy is implemented). -/
theorem c2_amended (env : Env) (c : Client) (h : c.lastHeartbeatAcked = false) :
    heartbeatTick env c = (c, [])
    ∧ (sendHeartbeat env c).2.2 = some HBErr.notAcked := by
  simp [heartbeatTick, sendHeartbeat, h]

/-- C2 witness: instantiating the amended claim at a connected client with a
pending unacknowledged heartbeat. -/
theorem c2_witness :
    zombieClient.lastHeartbeatAcked = false
    ∧ (heartbeatTick envOk zombieClient = (zombieClient, [])
        ∧ (sendHeartbeat envOk zombieClient).2.2 = some HBErr.notAcked) :=
  ⟨rfl, c2_amended envOk zombieClient rfl⟩

/-- C3 counterexample: a transport read failure makes the `startListening`
loop return a non-nil error (the reader goroutine's error forwarded on
`errCh`), which `ConnectToGateway` returns to its caller — and it is not the
cancellation exit. -/
theorem c3_counterexample :
    runListen envOk mkClientActive [ListenEvent.readFail]
      = (mkClientActive, some ListenExit.readErr)
    ∧ ListenExit.readErr ≠ ListenExit.ctxErr := by
  decide

/-- C3 amended: after a successful handshake, `ConnectToGateway` (via
`startListening`) also returns errors for transport read failures and for a
closed message channel; only per-message handler errors (Reconnect TODO,
InvalidSession, decode failures) are absorbed, i.e. logged, and there is no
reconnect policy absorbing transport failures. -/
theorem c3_amended (env : Env) (c : Client) (m : Packet) (evs : List ListenEvent) :
    (listenStep env c (ListenEvent.msg m)).2 = none
    ∧ (runListen env c (ListenEvent.readFail :: evs)).2 = some ListenExit.readErr := by
  simp [listenStep, runListen]

/-- C4: the claim is right about the protocol and the code's own opcode table
comment (Hello is wire opcode 10), but the `iota` block in
`src/opcodes/opcodes.go` does not skip the unused opcode 5, making
`opcodes.Hello = 9`: a first frame with op 10 is rejected as an invalid
handshake (with the loops never started), while op 9 is accepted, recording
the negotiated interval (45000 ms stored as nanoseconds) before the Identify
frame is sent. -/
theorem c4_code_bug :
    (connectHandshake envOk mkClient (FirstFrame.hello 10 45000)).error
        = some (ConnectErr.invalidHandshake 10)
    ∧ (connectHandshake envOk mkClient (FirstFrame.hello 10 45000)).loopsStarted = false
    ∧ (connectHandshake envOk mkClient (FirstFrame.hello 10 45000)).frames = []
    ∧ (connectHandshake envOk mkClient (FirstFrame.hello 9 45000)).error = none
    ∧ (connectHandshake envOk mkClient (FirstFrame.hello 9 45000)).client.heartbeatInterval
        = 45000000000
    ∧ (connectHandshake envOk mkClient (FirstFrame.hello 9 45000)).frames
        = [Frame.identifyMsg "tok"]
    ∧ (connectHandshake envOk mkClient (FirstFrame.hello 9 45000)).loopsStarted = true := by
  decide

/-- C5: on a READY dispatch packet whose payload decodes to `ReadyData`,
`handleMessage` stores the session id and resume URL, marks the heartbeat
acknowledged (regardless of the previous flag value), and sends exactly one
heartbeat frame carrying the current tracked sequence — which is −1 when it
still equals the value `NewBot` stored; the heartbeat is sent before the
Dispatch branch touches the sequence, and no error is returned. -/
theorem c5_ready (env : Env) (c : Client) (sid url : String)
    (hconn : c.connOpen = true)
    (hseq : c.sequence = (newBot c.token c.gateway).sequence)
    (hm : env.marshalOk = true) (hw : env.writeOk = true) :
    (handleMessage env c (readyPacket sid url)).1.sessionId = sid
    ∧ (handleMessage env c (readyPacket sid url)).1.resumeGateway = url
    ∧ (handleMessage env c (readyPacket sid url)).2.1 = [Frame.heartbeat (-1)]
    ∧ (handleMessage env c (readyPacket sid url)).2.2 = none := by
  have hs : c.sequence = -1 := by simpa [newBot] using hseq
  unfold handleMessage handleEventType handleOpcode
  simp [readyPacket, decodeReady, sendHeartbeat, hconn, hm, hw, hs,
    opcodes.Dispatch, opcodes.HeartbeatACK, opcodes.Heartbeat,
    opcodes.Reconnect, opcodes.InvalidSession, casMaxSequence]

/-- C5 witness: instantiating the claim at a freshly connected client
receiving Ready with session id `"abc"` and resume URL `"wss://x"`. -/
theorem c5_witness :
    mkClientActive.connOpen = true
    ∧ mkClientActive.sequence = (newBot mkClientActive.token mkClientActive.gateway).sequence
    ∧ ((handleMessage envOk mkClientActive (readyPacket "abc" "wss://x")).1.sessionId = "abc"
        ∧ (handleMessage envOk mkClientActive (readyPacket "abc" "wss://x")).1.resumeGateway
            = "wss://x"
        ∧ (handleMessage envOk mkClientActive (readyPacket "abc" "wss://x")).2.1
            = [Frame.heartbeat (-1)]
        ∧ (handleMessage envOk mkClientActive (readyPacket "abc" "wss://x")).2.2 = none) :=
  ⟨rfl, rfl, c5_ready envOk mkClientActive "abc" "wss://x" rfl rfl rfl rfl⟩

/-- C6 counterexample: processing an InvalidSession packet with
`resumable = false` on a client holding session id `"abc"` and resume URL
`"wss://x"` leaves both cached identity fields unchanged (not cleared),
writes no frame (so no fresh Connect→Identify handshake is performed), and
returns an error that `startListening` merely logs. -/
theorem c6_counterexample :
    handleMessage envOk sessionClient invalidSessionPacket
      = (sessionClient, [], some HMErr.invalidSessionNotResumable)
    ∧ sessionClient.sessionId = "abc" ∧ ¬ sessionClient.sessionId = "" := by
  decide

/-- C6 amended: `handleInvalidSession` with `resumable = false` only returns
an error: `handleMessage` leaves the client state (including the cached
session identity) untouched, sends nothing, and performs no reconnect. -/
theorem c6_amended (env : Env) (c : Client) :
    handleMessage env c invalidSessionPacket
      = (c, [], some HMErr.invalidSessionNotResumable) := by
  unfold handleMessage handleEventType handleOpcode
  simp [invalidSessionPacket, decodeBool, opcodes.InvalidSession,
    opcodes.HeartbeatACK, opcodes.Heartbeat, opcodes.Reconnect, opcodes.Dispatch]

/-- C7 counterexample: `resumeOldConnection` with a cached resume gateway but
an empty session id dials and sends a Resume frame carrying the empty session
id; and with an empty resume gateway it returns without sending anything —
no fallback Connect→Identify handshake is performed (no Identify frame). -/
theorem c7_counterexample :
    noSessionClient.sessionId = ""
    ∧ (resumeOldConnection envOk noSessionClient).2 = [Frame.resumeMsg "tok" "" (-1)]
    ∧ resumeOldConnection envOk noResumeUrlClient = (noResumeUrlClient, []) := by
  decide

/-- C7 amended: `resumeOldConnection` guards only on the resume gateway being
non-empty; when the dial, marshal and write succeed it sends a Resume frame
carrying the cached session id whether or not that id is empty, and when the
resume gateway is empty it sends nothing and does not fall back to a fresh
handshake. -/
theorem c7_amended (env : Env) (c : Client)
    (hd : env.dialOk = true) (hm : env.marshalOk = true) (hw : env.writeOk = true) :
    (resumeOldConnection env c).2 =
      if c.resumeGateway = "" then []
      else [Frame.resumeMsg c.token c.sessionId c.sequence] := by
  unfold resumeOldConnection
  split <;> simp [hd, hm, hw]

/-- C7 witness: instantiating the amended claim at a client with a cached
resume gateway and an empty session id. -/
theorem c7_witness :
    envOk.dialOk = true ∧ envOk.marshalOk = true ∧ envOk.writeOk = true
    ∧ (resumeOldConnection envOk noSessionClient).2
        = [Frame.resumeMsg "tok" "" (-1)] :=
  ⟨rfl, rfl, rfl, c7_amended envOk noSessionClient rfl rfl rfl⟩

/-- C8: a packet with wire opcode 7 (Reconnect on the wire and in the claim)
falls into the unknown-opcode default branch of `handleMessage` — because the
`iota` block makes `opcodes.Reconnect = 6` — and is merely logged, with no
close, no Resume, no Identify; even a packet with the code's own Reconnect
constant (6) only returns the error `"received reconnect opcode - TODO:
implement reconnection"`, leaving the connection open and sending nothing. -/
theorem c8_code_bug :
    handleMessage envOk sessionClient { op := 7, t := "", d := .raw, s := 0 }
      = (sessionClient, [], none)
    ∧ handleMessage envOk sessionClient { op := opcodes.Reconnect, t := "", d := .raw, s := 0 }
      = (sessionClient, [], some HMErr.reconnectTodo)
    ∧ sessionClient.connOpen = true := by
  decide

/-- C9: `Disconnect` is idempotent when the close succeeds: the first call
sends a normal-closure frame, closes and clears the connection handle and
returns nil; the second call sees no open connection and returns nil without
writing any frame or reaching the close branch, ending in the same terminal
state. -/
theorem c9_disconnect (env : Env) (c : Client)
    (hc : c.connOpen = true) (hok : env.closeOk = true) :
    disconnect env c = ({ c with connOpen := false }, [Frame.closeNormal], none)
    ∧ disconnect env { c with connOpen := false }
        = ({ c with connOpen := false }, [], none) := by
  simp [disconnect, hc, hok]

/-- C9 witness: instantiating the claim at a connected client. -/
theorem c9_witness :
    mkClientActive.connOpen = true ∧ envOk.closeOk = true
    ∧ (disconnect envOk mkClientActive
          = ({ mkClientActive with connOpen := false }, [Frame.closeNormal], none)
        ∧ disconnect envOk { mkClientActive with connOpen := false }
          = ({ mkClientActive with connOpen := false }, [], none)) :=
  ⟨rfl, rfl, c9_disconnect envOk mkClientActive rfl rfl⟩

/-- C10: `sendHeartbeat` clears the ack flag and stamps the send time before
the connection check and the write; on any failure (nil connection, marshal
error, write error) it returns an error with those two fields already
mutated and not restored, no frame is written, every later `sendHeartbeat`
fails the acknowledgment check, and `acknowledgeHeartbeat` restores the
flag. -/
theorem c10_heartbeat_mutation (env env2 : Env) (c : Client)
    (hack : c.lastHeartbeatAcked = true)
    (hfail : c.connOpen = false ∨ env.marshalOk = false ∨ env.writeOk = false) :
    (sendHeartbeat env c).1.lastHeartbeatAcked = false
    ∧ (sendHeartbeat env c).1.lastHeartbeatTimestamp = env.now
    ∧ ((sendHeartbeat env c).2.2).isSome = true
    ∧ (sendHeartbeat env c).2.1 = []
    ∧ sendHeartbeat env2 (sendHeartbeat env c).1
        = ((sendHeartbeat env c).1, [], some HBErr.notAcked)
    ∧ (acknowledgeHeartbeat env2 (sendHeartbeat env c).1).lastHeartbeatAcked = true := by
  rcases hfail with h | h | h <;>
    simp [sendHeartbeat, acknowledgeHeartbeat, hack, h] <;>
    by_cases h2 : c.connOpen <;> simp [h2] <;>
    by_cases h3 : env.marshalOk <;> simp [h3]

/-- C10 witness: instantiating the claim at a client whose connection pointer
is nil but whose ack flag is set. -/
theorem c10_witness :
    noConnClient.lastHeartbeatAcked = true
    ∧ (noConnClient.connOpen = false ∨ envOk.marshalOk = false ∨ envOk.writeOk = false)
    ∧ ((sendHeartbeat envOk noConnClient).1.lastHeartbeatAcked = false
        ∧ (sendHeartbeat envOk noConnClient).1.lastHeartbeatTimestamp = envOk.now
        ∧ ((sendHeartbeat envOk noConnClient).2.2).isSome = true
        ∧ (sendHeartbeat envOk noConnClient).2.1 = []
        ∧ sendHeartbeat envOk (sendHeartbeat envOk noConnClient).1
            = ((sendHeartbeat envOk noConnClient).1, [], some HBErr.notAcked)
        ∧ (acknowledgeHeartbeat envOk
            (sendHeartbeat envOk noConnClient).1).lastHeartbeatAcked = true) :=
  ⟨rfl, Or.inl rfl,
    c10_heartbeat_mutation envOk envOk noConnClient rfl (Or.inl rfl)⟩

end DiscordGo
